import Mathlib

/-!
Verification of the single-route Flask application in `src/app.py`.

The program (after bringing Flask and os into scope and creating the
Flask app object) registers one view function on the route '/':

  def hello_world():
      envVar= os.environ.get('IS_PRODUCTION', "didnt get any")
      res = 'Hello ECS! Finally it Works, Yaayy' + str(envVar)
      return res

We embed the process environment as a partial map from variable names to
string values, and execute the handler statement by statement over an
explicit process state (environment plus local-variable scope), so that
claims about side effects, determinism and freshness of the environment
read are provable facts about the embedding rather than artifacts of it.
-/

/-- A process environment, mirroring Python's `os.environ`: a partial map
from variable names to string values (`none` means the variable is unset). -/
def Env : Type := String → Option String

/-- `os.environ.get key dflt`: the value bound to `key` when present,
otherwise the supplied fallback `dflt`.  This is Python's `dict.get`,
which is total and never raises. -/
def os_environ_get (environ : Env) (key dflt : String) : String :=
  (environ key).getD dflt

/-- Python's `str` applied to a value that is already a string is the
identity (line 9 applies `str` to `envVar`, which is a string). -/
def pyStr (s : String) : String := s

/-- An HTTP response as observed at the public interface: status code and
body.  Flask converts a plain string returned from a view function into a
response with status 200 and that string as body. -/
structure HttpResponse where
  status : Nat
  body : String
deriving DecidableEq, Repr

/-- Exceptions a Python expression in the handler body could in principle
raise: `keyError` from a failing subscript, `nameError` from reading an
unbound local.  The embedding produces them exactly where Python would. -/
inductive PyExn where
  | keyError : String → PyExn
  | nameError : String → PyExn
deriving DecidableEq, Repr

/-- The process state visible to the handler: the process environment and
the handler's local-variable scope. -/
structure PState where
  environ : Env
  locals : List (String × String)

/-- Bind a local variable (Python assignment inside the function body). -/
def setLocal (s : PState) (x v : String) : PState :=
  { s with locals := (x, v) :: s.locals }

/-- Read a local variable; `none` when it is unbound. -/
def getLocal (s : PState) (x : String) : Option String :=
  s.locals.lookup x

/-- The body of `hello_world` (src/app.py lines 8-10), executed statement
by statement over the process state.

* line 8: `envVar = os.environ.get('IS_PRODUCTION', "didnt get any")`
* line 9: `res = 'Hello ECS! Finally it Works, Yaayy' + str(envVar)`
* line 10: `return res` — Flask wraps the returned string into a
  status-200 response.

Reading a local that Python would consider unbound raises `nameError`. -/
def hello_world_exec (s0 : PState) : Except PyExn HttpResponse × PState :=
  let s1 := setLocal s0 "envVar" (os_environ_get s0.environ "IS_PRODUCTION" "didnt get any")
  match getLocal s1 "envVar" with
  | none => (Except.error (PyExn.nameError "envVar"), s1)
  | some v =>
    let s2 := setLocal s1 "res" ("Hello ECS! Finally it Works, Yaayy" ++ pyStr v)
    match getLocal s2 "res" with
    | none => (Except.error (PyExn.nameError "res"), s2)
    | some r => (Except.ok { status := 200, body := r }, s2)

/-- One request to the root path `/`: Flask invokes `hello_world` with a
fresh (empty) local scope over the current process environment.  Locals
die with the call; the process environment the handler leaves behind is
returned alongside the response. -/
def handle_root (environ : Env) : Except PyExn HttpResponse × Env :=
  let out := hello_world_exec { environ := environ, locals := [] }
  (out.1, out.2.environ)

/-- Two successive requests to `/`, with the process environment
externally replaced by `envNew` between them (e.g. a redeployment); the
result is the second response. -/
def serve_after_env_change (envOld envNew : Env) : Except PyExn HttpResponse :=
  let first := handle_root envOld
  let changed : Env := envNew
  let _ := first
  (handle_root changed).1

/-- Closed-form behavior of one root-path request: status 200, body the
greeting literal followed by the `IS_PRODUCTION` value or the fallback,
environment returned unchanged. -/
theorem handle_root_eq (e : Env) :
    handle_root e =
      (Except.ok (HttpResponse.mk 200
          ("Hello ECS! Finally it Works, Yaayy" ++
            (e "IS_PRODUCTION").getD "didnt get any")), e) := rfl

/-- Claim C1: with `IS_PRODUCTION` unset, a request to the root path
returns status 200 with body exactly
`"Hello ECS! Finally it Works, Yaayydidnt get any"` — the fallback
literal substituted, in its lower-case informal spelling. -/
theorem c1_unset_gives_fallback_body (e : Env) (h : e "IS_PRODUCTION" = none) :
    (handle_root e).1 =
      Except.ok (HttpResponse.mk 200 "Hello ECS! Finally it Works, Yaayydidnt get any") := by
  rw [handle_root_eq, h]
  rfl

/-- Witness for C1 at the everywhere-empty environment. -/
theorem c1_unset_gives_fallback_body_witness :
    ((fun _ => none : Env) "IS_PRODUCTION" = none) ∧
    (handle_root (fun _ => none)).1 =
      Except.ok (HttpResponse.mk 200 "Hello ECS! Finally it Works, Yaayydidnt get any") :=
  ⟨rfl, c1_unset_gives_fallback_body (fun _ => none) rfl⟩

/-- Claim C2: with `IS_PRODUCTION` set to any string `v`, the root-path
response body is the fixed greeting literal concatenated with `v`. -/
theorem c2_set_value_concatenated (e : Env) (v : String)
    (h : e "IS_PRODUCTION" = some v) :
    (handle_root e).1 =
      Except.ok (HttpResponse.mk 200 ("Hello ECS! Finally it Works, Yaayy" ++ v)) := by
  rw [handle_root_eq, h]
  rfl

/-- Witness for C2 at `v = "true"`: the body is
`"Hello ECS! Finally it Works, Yaayytrue"`. -/
theorem c2_set_value_concatenated_witness :
    ((fun k => if k = "IS_PRODUCTION" then some "true" else none : Env)
        "IS_PRODUCTION" = some "true") ∧
    (handle_root (fun k => if k = "IS_PRODUCTION" then some "true" else none)).1 =
      Except.ok (HttpResponse.mk 200 "Hello ECS! Finally it Works, Yaayytrue") :=
  ⟨by decide,
   c2_set_value_concatenated
     (fun k => if k = "IS_PRODUCTION" then some "true" else none) "true" (by decide)⟩

/-- Claim C3: with `IS_PRODUCTION` explicitly set to the empty string, the
lookup yields the empty string rather than the fallback, so the body is
exactly the greeting literal; moreover this response differs from the one
produced by any environment with `IS_PRODUCTION` unset, so the two cases
are distinguishable at the public interface. -/
theorem c3_empty_string_distinct_from_unset (e : Env)
    (h : e "IS_PRODUCTION" = some "") :
    (handle_root e).1 =
      Except.ok (HttpResponse.mk 200 "Hello ECS! Finally it Works, Yaayy") ∧
    ∀ e2 : Env, e2 "IS_PRODUCTION" = none →
      (handle_root e).1 ≠ (handle_root e2).1 := by
  constructor
  · rw [handle_root_eq, h]
    rfl
  · intro e2 h2
    rw [handle_root_eq, handle_root_eq, h, h2]
    show Except.ok (HttpResponse.mk 200 ("Hello ECS! Finally it Works, Yaayy" ++ "")) ≠
      Except.ok (HttpResponse.mk 200 ("Hello ECS! Finally it Works, Yaayy" ++ "didnt get any"))
    intro hc
    exact absurd (congrArg Except.toOption hc) (by decide)

/-- Witness for C3: the empty-string environment against the empty one. -/
theorem c3_empty_string_distinct_from_unset_witness :
    ((fun k => if k = "IS_PRODUCTION" then some "" else none : Env)
        "IS_PRODUCTION" = some "") ∧
    (handle_root (fun k => if k = "IS_PRODUCTION" then some "" else none)).1 =
      Except.ok (HttpResponse.mk 200 "Hello ECS! Finally it Works, Yaayy") ∧
    (handle_root (fun k => if k = "IS_PRODUCTION" then some "" else none)).1 ≠
      (handle_root (fun _ => none)).1 :=
  ⟨by decide,
   (c3_empty_string_distinct_from_unset _ (by decide)).1,
   (c3_empty_string_distinct_from_unset
      (fun k => if k = "IS_PRODUCTION" then some "" else none) (by decide)).2
     (fun _ => none) rfl⟩

/-- Claim C4: for every environment state, a root-path request returns
HTTP status 200; no environment can produce a non-200 response. -/
theorem c4_status_always_200 (e : Env) :
    ∃ b, (handle_root e).1 = Except.ok (HttpResponse.mk 200 b) :=
  ⟨_, by rw [handle_root_eq]⟩

/-- Claim C5: the handler never raises an exception: from any process
state (in particular any environment and any local scope) its execution
produces `Except.ok`, never an error value — the handler is a total
function of the environment. -/
theorem c5_never_raises (s : PState) :
    ∃ r s2, hello_world_exec s = (Except.ok r, s2) :=
  ⟨_, _, rfl⟩

/-- Claim C6: the handler is deterministic and keeps no hidden state: a
second request served from the process state left by a first request
yields exactly the same response (and leaves the same state) as the first. -/
theorem c6_deterministic_no_hidden_state (e : Env) :
    handle_root (handle_root e).2 = handle_root e := rfl

/-- Claim C7: the handler has no side effects: a root-path request leaves
the process environment unchanged, and the statement-level execution
leaves the environment component of any starting state untouched. -/
theorem c7_no_side_effects (e : Env) :
    (handle_root e).2 = e ∧
    ∀ s : PState, (hello_world_exec s).2.environ = s.environ :=
  ⟨rfl, fun _ => rfl⟩

/-- Claim C8: the `IS_PRODUCTION` value is read fresh on every request:
if the environment is externally changed between two requests, the second
response reflects the new value, whatever the environment of the first
request was. -/
theorem c8_reads_environment_fresh (envOld envNew : Env) (v : String)
    (h : envNew "IS_PRODUCTION" = some v) :
    serve_after_env_change envOld envNew =
      Except.ok (HttpResponse.mk 200 ("Hello ECS! Finally it Works, Yaayy" ++ v)) := by
  show (handle_root envNew).1 = _
  rw [handle_root_eq, h]
  rfl

/-- Witness for C8: first request sees `"old"`, the environment then
changes to bind `IS_PRODUCTION` to `"true"`, and the second response shows
`"true"`, not `"old"`. -/
theorem c8_reads_environment_fresh_witness :
    ((fun k => if k = "IS_PRODUCTION" then some "true" else none : Env)
        "IS_PRODUCTION" = some "true") ∧
    serve_after_env_change (fun _ => some "old")
        (fun k => if k = "IS_PRODUCTION" then some "true" else none) =
      Except.ok (HttpResponse.mk 200 "Hello ECS! Finally it Works, Yaayytrue") :=
  ⟨by decide,
   c8_reads_environment_fresh (fun _ => some "old")
     (fun k => if k = "IS_PRODUCTION" then some "true" else none) "true" (by decide)⟩

/-- Claim C9: implicit invariant: the response body always begins with the
fixed prefix `"Hello ECS! Finally it Works, Yaayy"`, whatever the
environment. -/
theorem c9_body_prefix_invariant (e : Env) :
    ∃ r suffix, (handle_root e).1 = Except.ok r ∧
      r.body = "Hello ECS! Finally it Works, Yaayy" ++ suffix :=
  ⟨_, _, rfl, rfl⟩

/-- Claim C10: noninterference: the response depends only on the
`IS_PRODUCTION` entry of the environment — two environments agreeing on
that entry (presence and value), however they differ elsewhere, produce
equal responses. -/
theorem c10_depends_only_on_flag (e1 e2 : Env)
    (h : e1 "IS_PRODUCTION" = e2 "IS_PRODUCTION") :
    (handle_root e1).1 = (handle_root e2).1 := by
  rw [handle_root_eq, handle_root_eq, h]

/-- Witness for C10: two environments with the same `IS_PRODUCTION` entry
that disagree on every other variable yield equal responses. -/
theorem c10_depends_only_on_flag_witness :
    ((fun k => if k = "IS_PRODUCTION" then some "x" else none : Env)
        "IS_PRODUCTION" =
      (fun k => if k = "IS_PRODUCTION" then some "x" else some "other" : Env)
        "IS_PRODUCTION") ∧
    (handle_root (fun k => if k = "IS_PRODUCTION" then some "x" else none)).1 =
      (handle_root (fun k => if k = "IS_PRODUCTION" then some "x" else some "other")).1 :=
  ⟨by decide, c10_depends_only_on_flag _ _ (by decide)⟩
